import Mathlib

/-!
Shallow embedding of the authentication/authorization middleware of the
backend-api repository (`src/middleware.ts`, bearer-token variant, and the
cookie-based variant's permission table from the second middleware file).

Timestamps are modelled as `Int` milliseconds since the epoch (the value of
`Date.getTime()` / `Date.now()`).  JavaScript string operations used by the
source are embedded over `String.data` (`List Char`):
`path.startsWith(r)` becomes `strStartsWith path r`, `s.split(c)` becomes
`splitOnChar c s`, and the anchored regexes of the permission table
(`/^\/api\/.*​/` and friends, which match exactly the strings having the
anchored literal part as a prefix) become prefix tests.
-/

/-- JS `s.startsWith(pre)`. -/
def strStartsWith (s pre : String) : Bool :=
  pre.data.isPrefixOf s.data

/-- Worker for `splitOnChar`: `acc` holds the current chunk, reversed. -/
def splitCharAux (c : Char) : List Char → List Char → List String
  | [], acc => [String.mk acc.reverse]
  | d :: ds, acc =>
    if d == c then String.mk acc.reverse :: splitCharAux c ds []
    else splitCharAux c ds (d :: acc)

/-- JS `s.split(c)` for a single-character separator `c`
(always returns a non-empty array; `"".split('/') = ['']`). -/
def splitOnChar (c : Char) (s : String) : List String :=
  splitCharAux c s.data []

/-- `UserRole` enum from the generated Prisma client. -/
inductive UserRole
  | ADMIN
  | MANAGER
  | CLIENT
  | DELIVERY
deriving DecidableEq, BEq

/-- The string literal stored for each role (value of the `role` column,
written into the `x-user-role` header). -/
def UserRole.str : UserRole → String
  | .ADMIN => "ADMIN"
  | .MANAGER => "MANAGER"
  | .CLIENT => "CLIENT"
  | .DELIVERY => "DELIVERY"

/-- The `user` fields selected by the middleware's session lookup
(`select: { id, role, libraryId }`). -/
structure User where
  id : Nat
  role : UserRole
  libraryId : Option Nat
deriving DecidableEq, BEq

/-- A `Session` row: `id`, unique `sessionToken`, `expires` timestamp (ms),
and the joined owning user. -/
structure Session where
  id : Nat
  sessionToken : String
  expires : Int
  user : User
deriving DecidableEq, BEq

/-- The `path` field of a permission rule: either a plain string (compared
with `===`) or a regex.  Every regex in the table has the form
`^lit.*` or `^(lit1|lit2|lit3)` followed by `.*`, matching exactly the paths
that start with one of the expanded literal alternatives, so a regex rule is
embedded as its list of expanded literal prefixes. -/
inductive PathPattern
  | str (s : String)
  | re (prefixes : List String)

/-- One entry of the permission table: `{ path, methods? }`
(absent `methods` means every method is allowed). -/
structure PermRule where
  path : PathPattern
  methods : Option (List String)

/-- The `permissions` table of `src/middleware.ts` (`hasPermission`), rule
lists in source order.  `re ["/api/"]` is `/^\/api\/.*​/`, and
`re ["/api/loans/", "/api/reservations/", "/api/penalties/"]` is
`/^\/api\/(loans|reservations|penalties)\/.*​/`. -/
def permissions : UserRole → List PermRule
  | .ADMIN =>
    [⟨.re ["/api/"], some ["GET", "POST", "PATCH", "DELETE"]⟩]
  | .MANAGER =>
    [⟨.re ["/api/libraries/"], some ["GET", "PATCH"]⟩,
     ⟨.str "/api/users", some ["GET"]⟩,
     ⟨.re ["/api/books/"], some ["GET", "POST", "PATCH", "DELETE"]⟩,
     ⟨.re ["/api/loans/", "/api/reservations/", "/api/penalties/"],
      some ["GET", "POST", "PATCH"]⟩]
  | .CLIENT =>
    [⟨.str "/api/users/me", some ["GET", "PATCH"]⟩,
     ⟨.str "/api/books", some ["GET"]⟩,
     ⟨.str "/api/reservations", some ["GET", "POST", "DELETE"]⟩,
     ⟨.str "/api/feedbacks", some ["GET", "POST"]⟩]
  | .DELIVERY =>
    [⟨.str "/api/sales", some ["GET", "PATCH"]⟩,
     ⟨.str "/api/users/me", some ["GET"]⟩]

/-- The predicate applied to each rule inside `hasPermission`'s `.some(...)`:
`pathMatches && methodMatches`. -/
def ruleMatches (rule : PermRule) (path method : String) : Bool :=
  let pathMatches :=
    match rule.path with
    | .str s => path == s
    | .re ps => ps.any (fun p => strStartsWith path p)
  let methodMatches :=
    match rule.methods with
    | none => true
    | some ms => ms.contains method
  pathMatches && methodMatches

/-- `hasPermission(role, path, method)` from `src/middleware.ts`
(the `?? false` fallback is unreachable: the table has an entry for every
role). -/
def hasPermission (role : UserRole) (path method : String) : Bool :=
  (permissions role).any (fun rule => ruleMatches rule path method)

/-- `publicRoutes` of `src/middleware.ts`; a request is public when its path
starts with one of them. -/
def publicRoutes : List String :=
  ["/api/auth/login",
   "/api/auth/register",
   "/api/auth/signin",
   "/api/auth/callback",
   "/api/auth/providers",
   "/api/auth/session",
   "/api/auth/csrf",
   "/api/auth/debug"]

/-- `publicRoutes.some(route => path.startsWith(route))`: whether the path
is served without authentication. -/
def isPublicPath (path : String) : Bool :=
  publicRoutes.any (fun route => strStartsWith path route)

/-- A `Headers` map (header name to value). -/
def Headers := String → Option String

/-- `headers.set(n, v)`. -/
def Headers.set (h : Headers) (n v : String) : Headers :=
  fun m => if m == n then some v else h m

/-- `headers.get(n)`. -/
def Headers.get (h : Headers) (n : String) : Option String :=
  h n

/-- `authHeader?.split(' ')[1]`, with JS falsiness of the result:
the token is absent when the header is missing, has no second
space-separated part, or that part is the empty string. -/
def extractToken (authHeader : Option String) : Option String :=
  match authHeader with
  | none => none
  | some h =>
    match (splitOnChar ' ' h).get? 1 with
    | none => none
    | some t => if t == "" then none else some t

/-- An inbound request: pathname, HTTP method, and request headers. -/
structure Request where
  path : String
  method : String
  headers : Headers

/-- The middleware's environment: the session table and the current time
(`Date.now()`), plus two fault flags modelling the ORM calls throwing
(`findThrows` for `session.findUnique`, `updateThrows` for
`session.update`).  A throwing call is atomic: it performs no write. -/
structure Env where
  sessions : List Session
  now : Int
  findThrows : Bool
  updateThrows : Bool

/-- The response produced by the middleware: either the request is forwarded
(`next`, carrying the rewritten request headers when the middleware supplied
them) or rejected with an HTTP status and error message. -/
inductive Response
  | next (reqHeaders : Option Headers)
  | error (status : Nat) (msg : String)

/-- Status code of a rejection (`none` for a forwarded request). -/
def Response.status : Response → Option Nat
  | .next _ => none
  | .error s _ => some s

/-- Whether the request was forwarded to the handler. -/
def Response.forwarded : Response → Bool
  | .next _ => true
  | .error _ _ => false

/-- Result of one middleware run: the response, the session table after the
run, and a trace of the two effects the specification reasons about —
whether the renewal write was attempted and whether `hasPermission` was
evaluated. -/
structure MwResult where
  response : Response
  sessions : List Session
  renewalAttempted : Bool
  permissionChecked : Bool

/-- Value of a header of the forwarded request (`none` when the request was
rejected, or forwarded without rewritten headers). -/
def MwResult.forwardedHeader (r : MwResult) (n : String) : Option String :=
  match r.response with
  | .next (some hs) => hs.get n
  | _ => none

/-- `prisma.session.findUnique({ where: { sessionToken } })`: the unique
session row carrying the token, if any. -/
def findSession (ss : List Session) (tok : String) : Option Session :=
  ss.find? (fun s => s.sessionToken == tok)

/-- `prisma.session.update({ where: { id }, data: { expires } })`:
sets `expires` on the row(s) with the given id. -/
def updateSessionExpires (ss : List Session) (sid : Nat) (e : Int) :
    List Session :=
  ss.map (fun s => if s.id == sid then { s with expires := e } else s)

/-- One millisecond day, the renewal threshold (`86400000` in the source). -/
def oneDayMs : Int := 86400000

/-- Thirty days in milliseconds: the renewal
`newExpires.setDate(newExpires.getDate() + 30)` computed from the current
time, i.e. now + 30 days. -/
def thirtyDaysMs : Int := 2592000000

/-- The `middleware` function of `src/middleware.ts`.  Early `return`s of
the source become nested branches; the trailing `catch` block (status 500)
is reached exactly when a store call throws, which the fault flags model. -/
def middleware (env : Env) (req : Request) : MwResult :=
  let path := req.path
  let method := req.method
  -- 1. publicRoutes.some(route => path.startsWith(route))
  if isPublicPath path then
    ⟨.next none, env.sessions, false, false⟩
  else
    -- request.headers.get('authorization'), then split(' ')[1]
    match extractToken (req.headers.get "authorization") with
    | none =>
      ⟨.error 401 "Authentification requise", env.sessions, false, false⟩
    | some sessionToken =>
      -- try { ... } catch { 500 }
      if env.findThrows then
        ⟨.error 500 "Erreur d'authentification", env.sessions,
         false, false⟩
      else
        match findSession env.sessions sessionToken with
        | none =>
          ⟨.error 401 "Session expirée ou invalide", env.sessions,
           false, false⟩
        | some session =>
          if session.expires < env.now then
            ⟨.error 401 "Session expirée ou invalide", env.sessions,
             false, false⟩
          else
            -- if (session.expires.getTime() - Date.now() < 86400000)
            let needRenew : Bool :=
              decide (session.expires - env.now < oneDayMs)
            if needRenew && env.updateThrows then
              ⟨.error 500 "Erreur d'authentification", env.sessions,
               true, false⟩
            else
              let sessions' :=
                if needRenew then
                  updateSessionExpires env.sessions session.id
                    (env.now + thirtyDaysMs)
                else env.sessions
              let user := session.user
              let h1 := req.headers.set "x-user-id" (toString user.id)
              let h2 := h1.set "x-user-role" user.role.str
              -- if (user.libraryId): JS truthiness, 0 is falsy
              let h3 :=
                match user.libraryId with
                | some lid =>
                  if lid == 0 then h2
                  else h2.set "x-user-library-id" (toString lid)
                | none => h2
              if strStartsWith path "/api/users/" then
                -- path.split('/').pop()
                let userIdInPath := (splitOnChar '/' path).getLastD ""
                let isSelfAccess :=
                  userIdInPath == "me" ||
                  userIdInPath == toString user.id ||
                  user.role == UserRole.ADMIN
                if !isSelfAccess then
                  ⟨.error 403 "Accès refusé", sessions', needRenew, false⟩
                else
                  let h4 :=
                    if userIdInPath == "me" then
                      h3.set "x-requested-user-id" (toString user.id)
                    else h3
                  if !(hasPermission user.role path method) then
                    ⟨.error 403 "Permissions insuffisantes", sessions',
                     needRenew, true⟩
                  else
                    ⟨.next (some h4), sessions', needRenew, true⟩
              else
                if !(hasPermission user.role path method) then
                  ⟨.error 403 "Permissions insuffisantes", sessions',
                   needRenew, true⟩
                else
                  ⟨.next (some h3), sessions', needRenew, true⟩

/-- `publicRoutes` of the cookie-based middleware variant (the second
middleware file); that variant tests membership with `includes`, i.e. exact
path equality rather than `startsWith`. -/
def publicRoutesCookie : List String :=
  ["/api/auth/login", "/api/auth/register"]

/-- The permission table of the cookie-based variant's `hasPermission`
(second middleware file), rule lists in source order. -/
def permissionsCookie : UserRole → List PermRule
  | .ADMIN =>
    [⟨.re ["/api/"], some ["GET", "POST", "PATCH", "DELETE"]⟩]
  | .MANAGER =>
    [⟨.re ["/api/libraries/"], some ["GET", "PATCH"]⟩,
     ⟨.str "/api/users", some ["GET"]⟩,
     ⟨.re ["/api/books/"], some ["GET", "POST", "PATCH", "DELETE"]⟩,
     ⟨.re ["/api/loans/", "/api/reservations/", "/api/penalties/"],
      some ["GET", "POST", "PATCH"]⟩]
  | .CLIENT =>
    [⟨.str "/api/users/me", some ["GET", "PATCH"]⟩,
     ⟨.str "/api/books", some ["GET"]⟩,
     ⟨.str "/api/reservations", some ["GET", "POST", "DELETE"]⟩,
     ⟨.str "/api/feedbacks", some ["GET", "POST"]⟩]
  | .DELIVERY =>
    [⟨.str "/api/sales", some ["GET", "PATCH"]⟩,
     ⟨.str "/api/users/me", some ["GET"]⟩]

/-- `hasPermission` of the cookie-based variant; its per-rule predicate is
character-for-character the same as the bearer variant's, so `ruleMatches`
is shared. -/
def hasPermissionCookie (role : UserRole) (path method : String) : Bool :=
  (permissionsCookie role).any (fun rule => ruleMatches rule path method)

/-- Two strings that are prefixes of a common string are comparable, so a
string starting with `a` cannot also start with a `b` that neither extends
nor is extended by `a`. -/
lemma strStartsWith_excl {p a b : String} (ha : strStartsWith p a = true)
    (h₁ : a.data.isPrefixOf b.data = false)
    (h₂ : b.data.isPrefixOf a.data = false) :
    strStartsWith p b = false := by
  unfold strStartsWith at ha ⊢
  by_contra hb
  rw [Bool.not_eq_false] at hb
  rw [ List.isPrefixOf_iff_prefix] at ha hb
  rcases List.prefix_or_prefix_of_prefix ha hb with h | h
  · rw [← List.isPrefixOf_iff_prefix] at h
    rw [h] at h₁
    exact Bool.noConfusion h₁
  · rw [← List.isPrefixOf_iff_prefix] at h
    rw [h] at h₂
    exact Bool.noConfusion h₂

/-- A path under `/api/users/` matches none of the public-route entries. -/
lemma users_not_public {p : String}
    (h : strStartsWith p "/api/users/" = true) :
    isPublicPath p = false := by
  rw [isPublicPath, List.any_eq_false]
  intro r hr
  simp only [publicRoutes, List.mem_cons, List.not_mem_nil, or_false] at hr
  simp only [Bool.not_eq_true]
  rcases hr with rfl | rfl | rfl | rfl | rfl | rfl | rfl | rfl <;>
    exact strStartsWith_excl h (by decide) (by decide)

/-- The split worker never returns the empty list. -/
lemma splitCharAux_ne_nil (c : Char) (l acc : List Char) :
    splitCharAux c l acc ≠ [] := by
  induction l generalizing acc with
  | nil => simp [splitCharAux]
  | cons d ds ih =>
    simp only [splitCharAux]
    split
    · simp
    · exact ih _

/-- Dropping the head of a non-empty-tailed cons keeps the last element. -/
lemma getLast?_cons_of_ne_nil {α : Type} (a : α) {l : List α} (h : l ≠ []) :
    (a :: l).getLast? = l.getLast? := by
  cases l with
  | nil => exact absurd rfl h
  | cons x xs => exact List.getLast?_cons_cons

/-- The last chunk of a split only depends on what follows a separator. -/
lemma getLast?_splitCharAux_append (c : Char) (l₂ : List Char) :
    ∀ (l₁ acc : List Char),
      (splitCharAux c (l₁ ++ c :: l₂) acc).getLast? =
        (splitCharAux c l₂ []).getLast? := by
  intro l₁
  induction l₁ with
  | nil =>
    intro acc
    rw [List.nil_append]
    simp only [splitCharAux, beq_self_eq_true, if_true]
    exact getLast?_cons_of_ne_nil _ (splitCharAux_ne_nil c l₂ [])
  | cons d ds ih =>
    intro acc
    rw [List.cons_append]
    simp only [splitCharAux]
    split
    · rw [getLast?_cons_of_ne_nil _ (splitCharAux_ne_nil c _ [])]
      exact ih []
    · exact ih _

/-- Splitting a chunk free of the separator yields that single chunk. -/
lemma splitCharAux_of_not_mem (c : Char) :
    ∀ (l acc : List Char), c ∉ l →
      splitCharAux c l acc = [String.mk (acc.reverse ++ l)] := by
  intro l
  induction l with
  | nil =>
    intro acc _
    simp [splitCharAux]
  | cons d ds ih =>
    intro acc hc
    simp only [List.mem_cons, not_or] at hc
    have hdc : (d == c) = false := by
      simp only [beq_eq_false_iff_ne, ne_eq]
      exact fun e => hc.1 e.symm
    simp only [splitCharAux, hdc, Bool.false_eq_true, if_false]
    rw [ih _ hc.2]
    simp [List.append_assoc]

/-- JS `(s₁ + "/" + s₂).split('/').pop()` returns `s₂` whenever `s₂`
contains no slash. -/
lemma getLastD_splitOnChar_append (s₁ s₂ : String) (h : '/' ∉ s₂.data) :
    (splitOnChar '/' (s₁ ++ "/" ++ s₂)).getLastD "" = s₂ := by
  unfold splitOnChar
  have hslash : ("/" : String).data = ['/'] := rfl
  have hd : (s₁ ++ "/" ++ s₂).data = s₁.data ++ '/' :: s₂.data := by
    simp [String.data_append, hslash]
  rw [hd, List.getLastD_eq_getLast?, getLast?_splitCharAux_append,
      splitCharAux_of_not_mem _ _ _ h]
  rfl

/-- A string extended on the right starts with itself. -/
lemma strStartsWith_of_data {p s : String} {r : List Char}
    (h : p.data = s.data ++ r) : strStartsWith p s = true := by
  unfold strStartsWith
  rw [ List.isPrefixOf_iff_prefix, h]
  exact List.prefix_append _ _

/-- Whether no rule listed for `r` in the permission table covers the
(path, method) pair. -/
def uncoveredBy (r : UserRole) (path method : String) : Bool :=
  (permissions r).all (fun rule => !(ruleMatches rule path method))

/-- C1: deny-by-default — for every role and every (path, method) pair
covered by none of the role's permission rules, `hasPermission` returns
false; in particular MANAGER deleting `/api/users` is denied (the table
only grants GET there). -/
theorem c1_deny_by_default (r : UserRole) (path method : String)
    (h : uncoveredBy r path method = true) :
    hasPermission r path method = false ∧
      hasPermission .MANAGER "/api/users" "DELETE" = false := by
  constructor
  · rw [hasPermission, List.any_eq_false]
    intro rule hr
    have hx := List.all_eq_true.mp h rule hr
    simp only [Bool.not_eq_eq_eq_not, Bool.not_true] at hx
    simp [hx]
  · decide

/-- Witness for C1: no DELIVERY rule covers ("/api/books", GET), and the
pair is denied. -/
theorem c1_deny_by_default_witness :
    uncoveredBy .DELIVERY "/api/books" "GET" = true ∧
      (hasPermission .DELIVERY "/api/books" "GET" = false ∧
        hasPermission .MANAGER "/api/users" "DELETE" = false) :=
  ⟨by decide, c1_deny_by_default .DELIVERY "/api/books" "GET" (by decide)⟩

/-- C5: ADMIN full access — every path starting with `/api/` combined with
any of GET, POST, PATCH, DELETE is allowed for ADMIN. -/
theorem c5_admin_full_access (p m : String)
    (hp : strStartsWith p "/api/" = true)
    (hm : m ∈ ["GET", "POST", "PATCH", "DELETE"]) :
    hasPermission .ADMIN p m = true := by
  simp only [hasPermission, permissions, ruleMatches, List.any_cons,
    List.any_nil, Bool.or_false, hp]
  simp only [List.mem_cons, List.not_mem_nil, or_false] at hm
  rcases hm with rfl | rfl | rfl | rfl <;> decide

/-- Witness for C5 at path "/api/libraries/3" and method DELETE. -/
theorem c5_admin_full_access_witness :
    strStartsWith "/api/libraries/3" "/api/" = true ∧
      "DELETE" ∈ ["GET", "POST", "PATCH", "DELETE"] ∧
      hasPermission .ADMIN "/api/libraries/3" "DELETE" = true :=
  ⟨by decide, by decide,
   c5_admin_full_access "/api/libraries/3" "DELETE" (by decide) (by decide)⟩

/-- C8 counterexample: the claim says the two variants' `hasPermission`
functions differ on at least one (role, path, method) triple, but they are
equal as functions — the two permission tables are identical. -/
theorem c8_tables_equal : hasPermission = hasPermissionCookie := by
  funext r p m
  cases r <;> rfl

/-- C8 amended: the two middleware variants have different public-route
lists (`/api/auth/signin` is listed only by the bearer-token variant), but
identical permission tables: the two `hasPermission` functions agree on
every (role, path, method) triple. -/
theorem c8_variants_diverge_only_on_public_routes :
    ("/api/auth/signin" ∈ publicRoutes ∧
      "/api/auth/signin" ∉ publicRoutesCookie) ∧
      hasPermission = hasPermissionCookie := by
  refine ⟨⟨by decide, by decide⟩, ?_⟩
  funext r p m
  cases r <;> rfl

/-- C3: a token whose session row exists but is already expired is rejected
with 401: the store is untouched, no renewal is attempted, no request
headers are produced, and `hasPermission` is never evaluated — exactly the
rejection an absent session receives. -/
theorem c3_expired_session_rejected (env : Env) (req : Request)
    (tok : String) (sess : Session)
    (hpub : isPublicPath req.path = false)
    (htok : extractToken (req.headers.get "authorization") = some tok)
    (hft : env.findThrows = false)
    (hfind : findSession env.sessions tok = some sess)
    (hexp : sess.expires < env.now) :
    middleware env req =
      ⟨.error 401 "Session expirée ou invalide", env.sessions,
       false, false⟩ := by
  simp only [middleware, hpub, htok, hft, hfind, Bool.false_eq_true,
    if_false, if_pos hexp]

/-- Concrete session for the C3 witness: CLIENT 7, expired 1 second ago. -/
def c3sess : Session := ⟨1, "tok3", 999000, ⟨7, .CLIENT, none⟩⟩

/-- Concrete environment for the C3 witness. -/
def c3env : Env := ⟨[c3sess], 1000000, false, false⟩

/-- Concrete request for the C3 witness. -/
def c3req : Request :=
  ⟨"/api/books", "GET",
   fun n => if n == "authorization" then some "Bearer tok3" else none⟩

/-- Witness for C3: the expired concrete session is rejected with 401 and
no effect. -/
theorem c3_expired_session_rejected_witness :
    isPublicPath c3req.path = false ∧
      extractToken (c3req.headers.get "authorization") = some "tok3" ∧
      c3env.findThrows = false ∧
      findSession c3env.sessions "tok3" = some c3sess ∧
      c3sess.expires < c3env.now ∧
      middleware c3env c3req =
        ⟨.error 401 "Session expirée ou invalide", c3env.sessions,
         false, false⟩ :=
  ⟨by decide, by decide, by decide, by decide, by decide,
   c3_expired_session_rejected c3env c3req "tok3" c3sess (by decide)
     (by decide) (by decide) (by decide) (by decide)⟩

/-- C4: sliding-window renewal — for a valid unexpired session, the store
after the run holds `expires = now + 30 days` for that session exactly when
the remaining lifetime was under one day, and is untouched otherwise; the
renewal write happens if and only if the lifetime was under one day. -/
theorem c4_sliding_window_renewal (env : Env) (req : Request)
    (tok : String) (sess : Session)
    (hpub : isPublicPath req.path = false)
    (htok : extractToken (req.headers.get "authorization") = some tok)
    (hft : env.findThrows = false)
    (hut : env.updateThrows = false)
    (hfind : findSession env.sessions tok = some sess)
    (hexp : ¬ sess.expires < env.now) :
    (middleware env req).sessions =
      (if sess.expires - env.now < oneDayMs then
        updateSessionExpires env.sessions sess.id (env.now + thirtyDaysMs)
      else env.sessions) ∧
    (middleware env req).renewalAttempted =
      decide (sess.expires - env.now < oneDayMs) := by
  by_cases hc : sess.expires - env.now < oneDayMs
  · have hnr : decide (sess.expires - env.now < oneDayMs) = true :=
      decide_eq_true hc
    rw [if_pos hc, hnr]
    simp only [middleware, hpub, htok, hft, hut, hfind, Bool.false_eq_true,
      if_false, if_neg hexp, hnr, Bool.and_false, if_true]
    refine ⟨?_, ?_⟩ <;> (repeat' split) <;> rfl
  · have hnr : decide (sess.expires - env.now < oneDayMs) = false :=
      decide_eq_false hc
    rw [if_neg hc, hnr]
    simp only [middleware, hpub, htok, hft, hut, hfind, Bool.false_eq_true,
      if_false, if_neg hexp, hnr, Bool.false_and]
    refine ⟨?_, ?_⟩ <;> (repeat' split) <;> rfl

/-- Concrete session for the C4 witness: CLIENT 7, 12 hours remaining. -/
def c4sess : Session := ⟨2, "tok4", 43200000, ⟨7, .CLIENT, none⟩⟩

/-- Concrete environment for the C4 witness (now = 0). -/
def c4env : Env := ⟨[c4sess], 0, false, false⟩

/-- Concrete request for the C4 witness. -/
def c4req : Request :=
  ⟨"/api/books", "GET",
   fun n => if n == "authorization" then some "Bearer tok4" else none⟩

/-- Witness for C4: a session with 12 hours left is renewed to
now + 30 days. -/
theorem c4_sliding_window_renewal_witness :
    isPublicPath c4req.path = false ∧
      extractToken (c4req.headers.get "authorization") = some "tok4" ∧
      findSession c4env.sessions "tok4" = some c4sess ∧
      c4env.now ≤ c4sess.expires ∧
      ((middleware c4env c4req).sessions =
        (if c4sess.expires - c4env.now < oneDayMs then
          updateSessionExpires c4env.sessions c4sess.id
            (c4env.now + thirtyDaysMs)
        else c4env.sessions) ∧
      (middleware c4env c4req).renewalAttempted =
        decide (c4sess.expires - c4env.now < oneDayMs)) :=
  ⟨by decide, by decide, by decide, by decide,
   c4_sliding_window_renewal c4env c4req "tok4" c4sess (by decide)
     (by decide) (by decide) (by decide) (by decide) (by decide)⟩

/-- C6: a failing renewal write is a store failure — when the session is
valid and due for renewal but the update throws, the middleware answers 500
(it does not forward the request) and the session table is unchanged. -/
theorem c6_renewal_failure_is_store_failure (env : Env) (req : Request)
    (tok : String) (sess : Session)
    (hpub : isPublicPath req.path = false)
    (htok : extractToken (req.headers.get "authorization") = some tok)
    (hft : env.findThrows = false)
    (hfind : findSession env.sessions tok = some sess)
    (hexp : ¬ sess.expires < env.now)
    (hdue : sess.expires - env.now < oneDayMs)
    (hut : env.updateThrows = true) :
    middleware env req =
      ⟨.error 500 "Erreur d'authentification", env.sessions,
       true, false⟩ := by
  have hnr : decide (sess.expires - env.now < oneDayMs) = true :=
    decide_eq_true hdue
  simp only [middleware, hpub, htok, hft, hfind, Bool.false_eq_true,
    if_false, if_neg hexp, hnr, hut, Bool.and_true, if_true]

/-- Concrete session for the C6 witness: 1 hour remaining. -/
def c6sess : Session := ⟨3, "tok6", 3600000, ⟨7, .CLIENT, none⟩⟩

/-- Concrete environment for the C6 witness: the update write throws. -/
def c6env : Env := ⟨[c6sess], 0, false, true⟩

/-- Concrete request for the C6 witness. -/
def c6req : Request :=
  ⟨"/api/books", "GET",
   fun n => if n == "authorization" then some "Bearer tok6" else none⟩

/-- Witness for C6: the failed renewal yields 500 with no store change. -/
theorem c6_renewal_failure_is_store_failure_witness :
    findSession c6env.sessions "tok6" = some c6sess ∧
      c6env.now ≤ c6sess.expires ∧
      c6sess.expires - c6env.now < oneDayMs ∧
      c6env.updateThrows = true ∧
      middleware c6env c6req =
        ⟨.error 500 "Erreur d'authentification", c6env.sessions,
         true, false⟩ :=
  ⟨by decide, by decide, by decide, by decide,
   c6_renewal_failure_is_store_failure c6env c6req "tok6" c6sess
     (by decide) (by decide) (by decide) (by decide) (by decide)
     (by decide) (by decide)⟩

/-- C10: renewal precedes authorization — when a valid session due for
renewal is then rejected with 403 (self-access or permission denial), its
`expires` has nonetheless already been extended to now + 30 days in the
store; the 403 is not atomic with respect to session state. -/
theorem c10_renewal_precedes_authorization (env : Env) (req : Request)
    (tok : String) (sess : Session)
    (hpub : isPublicPath req.path = false)
    (htok : extractToken (req.headers.get "authorization") = some tok)
    (hft : env.findThrows = false)
    (hut : env.updateThrows = false)
    (hfind : findSession env.sessions tok = some sess)
    (hexp : ¬ sess.expires < env.now)
    (hdue : sess.expires - env.now < oneDayMs)
    (h403 : (middleware env req).response.status = some 403) :
    (middleware env req).sessions =
      updateSessionExpires env.sessions sess.id (env.now + thirtyDaysMs) ∧
    (middleware env req).renewalAttempted = true := by
  have hnr : decide (sess.expires - env.now < oneDayMs) = true :=
    decide_eq_true hdue
  simp only [middleware, hpub, htok, hft, hut, hfind, Bool.false_eq_true,
    if_false, if_neg hexp, hnr, Bool.and_false, if_true]
  refine ⟨?_, ?_⟩ <;> (repeat' split) <;> rfl

/-- Concrete session for the C10 witness: CLIENT 7, 1 hour remaining. -/
def c10sess : Session := ⟨4, "tok10", 3600000, ⟨7, .CLIENT, none⟩⟩

/-- Concrete environment for the C10 witness. -/
def c10env : Env := ⟨[c10sess], 0, false, false⟩

/-- Concrete request for the C10 witness: CLIENT 7 asking for user 8's
data, which the self-access rule rejects with 403. -/
def c10req : Request :=
  ⟨"/api/users/8", "GET",
   fun n => if n == "authorization" then some "Bearer tok10" else none⟩

/-- Witness for C10: the 403-rejected request still renewed the session. -/
theorem c10_renewal_precedes_authorization_witness :
    findSession c10env.sessions "tok10" = some c10sess ∧
      c10sess.expires - c10env.now < oneDayMs ∧
      (middleware c10env c10req).response.status = some 403 ∧
      ((middleware c10env c10req).sessions =
        updateSessionExpires c10env.sessions c10sess.id
          (c10env.now + thirtyDaysMs) ∧
      (middleware c10env c10req).renewalAttempted = true) :=
  ⟨by decide, by decide, by decide,
   c10_renewal_precedes_authorization c10env c10req "tok10" c10sess
     (by decide) (by decide) (by decide) (by decide) (by decide)
     (by decide) (by decide) (by decide)⟩

/-- C2: the self-access check precedes the permission-table check — for an
authenticated non-ADMIN caller, a `/api/users/…` request whose trailing
segment is `me` or the caller's own id goes on to the permission check,
while any other trailing segment is rejected with 403 before
`hasPermission` is ever evaluated. -/
theorem c2_self_access_precedes_permission (env : Env) (req : Request)
    (tok : String) (sess : Session) (s : String)
    (husers : strStartsWith req.path "/api/users/" = true)
    (hlast : (splitOnChar '/' req.path).getLastD "" = s)
    (hrole : sess.user.role ≠ .ADMIN)
    (htok : extractToken (req.headers.get "authorization") = some tok)
    (hft : env.findThrows = false)
    (hut : env.updateThrows = false)
    (hfind : findSession env.sessions tok = some sess)
    (hexp : ¬ sess.expires < env.now) :
    if (s == "me" || s == toString sess.user.id) = true then
      (middleware env req).permissionChecked = true
    else
      (middleware env req).response = .error 403 "Accès refusé" ∧
        (middleware env req).permissionChecked = false := by
  have hpub := users_not_public husers
  have hadm : (sess.user.role == UserRole.ADMIN) = false := by
    cases hr : sess.user.role <;> first | exact absurd hr hrole | rfl
  by_cases hs : (s == "me" || s == toString sess.user.id) = true
  · rw [if_pos hs]
    simp only [middleware, hpub, htok, hft, hut, hfind, Bool.false_eq_true,
      if_false, if_neg hexp, Bool.and_false, husers, if_true, hlast, hadm,
      Bool.or_false, hs, Bool.not_true]
    (repeat' split) <;> rfl
  · rw [if_neg hs]
    rw [Bool.not_eq_true] at hs
    simp only [middleware, hpub, htok, hft, hut, hfind, Bool.false_eq_true,
      if_false, if_neg hexp, Bool.and_false, husers, if_true, hlast, hadm,
      Bool.or_false, hs, Bool.not_false]
    exact ⟨trivial, trivial⟩

/-- Concrete session for the C2 witness: CLIENT with id 7, far from
expiry. -/
def c2sess : Session := ⟨5, "tok2", 1000000000, ⟨7, .CLIENT, none⟩⟩

/-- Concrete environment for the C2 witness. -/
def c2env : Env := ⟨[c2sess], 0, false, false⟩

/-- Concrete request for the C2 witness: CLIENT 7 asking for user 8. -/
def c2req : Request :=
  ⟨"/api/users/8", "GET",
   fun n => if n == "authorization" then some "Bearer tok2" else none⟩

/-- Witness for C2: CLIENT 7 requesting `/api/users/8` is rejected with 403
and the permission table is never consulted. -/
theorem c2_self_access_precedes_permission_witness :
    strStartsWith c2req.path "/api/users/" = true ∧
      (splitOnChar '/' c2req.path).getLastD "" = "8" ∧
      (("8" : String) == "me") = false ∧
      (("8" : String) == toString c2sess.user.id) = false ∧
      (if (("8" : String) == "me" ||
            ("8" : String) == toString c2sess.user.id) = true then
        (middleware c2env c2req).permissionChecked = true
      else
        (middleware c2env c2req).response = .error 403 "Accès refusé" ∧
          (middleware c2env c2req).permissionChecked = false) :=
  ⟨by decide, by decide, by decide, by decide,
   c2_self_access_precedes_permission c2env c2req "tok2" c2sess "8"
     (by decide) (by decide) (by decide) (by decide) (by decide)
     (by decide) (by decide) (by decide)⟩

/-- C9: because the self-access rule only compares the last path segment, a
non-ADMIN caller is rejected with 403 on every user sub-resource path
`/api/users/<n>/<sub>` — even when `<n>` is the caller's own id — and the
permission table is never consulted (`<sub>` being neither `me` nor the
caller's id string). -/
theorem c9_user_subresource_rejected (env : Env) (req : Request)
    (tok : String) (sess : Session) (n : Nat) (sub : String)
    (hpath : req.path = "/api/users/" ++ toString n ++ "/" ++ sub)
    (hnoslash : '/' ∉ sub.data)
    (hsub1 : sub ≠ "me")
    (hsub2 : sub ≠ toString sess.user.id)
    (hrole : sess.user.role ≠ .ADMIN)
    (htok : extractToken (req.headers.get "authorization") = some tok)
    (hft : env.findThrows = false)
    (hut : env.updateThrows = false)
    (hfind : findSession env.sessions tok = some sess)
    (hexp : ¬ sess.expires < env.now) :
    (middleware env req).response = .error 403 "Accès refusé" ∧
      (middleware env req).permissionChecked = false := by
  have husers : strStartsWith req.path "/api/users/" = true := by
    rw [hpath]
    refine strStartsWith_of_data (r := (toString n).data ++ '/' :: sub.data)
      ?_
    have hslash : ("/" : String).data = ['/'] := rfl
    simp [String.data_append, hslash]
  have hpub := users_not_public husers
  have hlast : (splitOnChar '/' req.path).getLastD "" = sub := by
    rw [hpath]
    exact getLastD_splitOnChar_append _ _ hnoslash
  have hme : (sub == "me") = false := beq_eq_false_iff_ne.mpr hsub1
  have hid : (sub == toString sess.user.id) = false :=
    beq_eq_false_iff_ne.mpr hsub2
  have hadm : (sess.user.role == UserRole.ADMIN) = false := by
    cases hr : sess.user.role <;> first | exact absurd hr hrole | rfl
  simp only [middleware, hpub, htok, hft, hut, hfind, Bool.false_eq_true,
    if_false, if_neg hexp, Bool.and_false, husers, if_true, hlast, hme, hid,
    hadm, Bool.or_self, Bool.or_false, Bool.not_false]
  exact ⟨trivial, trivial⟩

/-- Concrete session for the C9 witness: CLIENT with id 7. -/
def c9sess : Session := ⟨6, "tok9", 1000000000, ⟨7, .CLIENT, none⟩⟩

/-- Concrete environment for the C9 witness. -/
def c9env : Env := ⟨[c9sess], 0, false, false⟩

/-- Concrete request for the C9 witness: CLIENT 7 asking for their own
penalties sub-resource. -/
def c9req : Request :=
  ⟨"/api/users/7/penalties", "GET",
   fun n => if n == "authorization" then some "Bearer tok9" else none⟩

/-- Witness for C9: `/api/users/7/penalties` is rejected with 403 for the
caller whose own id is 7, without any permission lookup. -/
theorem c9_user_subresource_rejected_witness :
    c9req.path = "/api/users/" ++ toString 7 ++ "/" ++ "penalties" ∧
      c9sess.user.id = 7 ∧
      (("penalties" : String) == "me") = false ∧
      ((middleware c9env c9req).response = .error 403 "Accès refusé" ∧
        (middleware c9env c9req).permissionChecked = false) :=
  ⟨by decide, by decide, by decide,
   c9_user_subresource_rejected c9env c9req "tok9" c9sess 7 "penalties"
     (by decide) (by decide) (by decide) (by decide) (by decide)
     (by decide) (by decide) (by decide) (by decide) (by decide)⟩

/-- C7: every forwarded request to `/api/users/me` carries an
`x-requested-user-id` header equal to the caller's own id. -/
theorem c7_me_request_carries_requested_user_id (env : Env) (req : Request)
    (tok : String) (sess : Session)
    (hpath : req.path = "/api/users/me")
    (htok : extractToken (req.headers.get "authorization") = some tok)
    (hfind : findSession env.sessions tok = some sess)
    (hfwd : (middleware env req).response.forwarded = true) :
    (middleware env req).forwardedHeader "x-requested-user-id" =
      some (toString sess.user.id) := by
  have hpub : isPublicPath "/api/users/me" = false := by decide
  have husers : strStartsWith "/api/users/me" "/api/users/" = true := by
    decide
  have hlast : (splitOnChar '/' "/api/users/me").getLastD "" = "me" := rfl
  simp only [middleware, MwResult.forwardedHeader, hpath, hpub, htok, hfind,
    Bool.false_eq_true, if_false, husers, if_true, hlast, beq_self_eq_true,
    Bool.true_or, Bool.not_true, eq_self_iff_true] at hfwd ⊢
  split_ifs at hfwd ⊢ <;>
    simp_all [Response.forwarded, Headers.get, Headers.set]

/-- Concrete session for the C7 witness: CLIENT with id 7. -/
def c7sess : Session := ⟨7, "tok7", 1000000000, ⟨7, .CLIENT, none⟩⟩

/-- Concrete environment for the C7 witness. -/
def c7env : Env := ⟨[c7sess], 0, false, false⟩

/-- Concrete request for the C7 witness. -/
def c7req : Request :=
  ⟨"/api/users/me", "GET",
   fun n => if n == "authorization" then some "Bearer tok7" else none⟩

/-- Witness for C7: the forwarded `/api/users/me` request carries
`x-requested-user-id: 7`. -/
theorem c7_me_request_carries_requested_user_id_witness :
    c7req.path = "/api/users/me" ∧
      findSession c7env.sessions "tok7" = some c7sess ∧
      (middleware c7env c7req).response.forwarded = true ∧
      (middleware c7env c7req).forwardedHeader "x-requested-user-id" =
        some (toString c7sess.user.id) :=
  ⟨by decide, by decide, by decide,
   c7_me_request_carries_requested_user_id c7env c7req "tok7" c7sess
     (by decide) (by decide) (by decide) (by decide)⟩
